import Mathlib

/-!
Verification of the Schunk SDH ROS node (sdh_only.cpp) against its
natural-language specification.  The node is a bridge between ROS
joint-space commands (radians, joint-name ordering) and the vendor SDK
axis-space (degrees, axis-index ordering), with a single pending-goal
slot consumed by a periodic tick (updateSdh).

The embedding below models the member functions of class SdhNode as pure
Lean functions over an explicit state record.  The vendor SDK (class
SDH.cSDH) is modelled as a deterministic device oracle recording, for
each device call the node makes, whether that call raises a
cSDHLibraryException and what the reads return.  Real numbers of the
C++ code (double) are modelled as rationals; the constant pi_ of the
node is the literal 3.1415926 from the constructor.
-/

/-- Mirror of the SdhNode member state relevant to the verified claims:
isInitialized_, isError_, hasNewGoal_, operationMode_, targetAngles_
(degrees), velocities_ (degrees per second after conversion),
max_velocities_ and state_ (per-axis eAxisState values). -/
structure SdhState where
  isInitialized : Bool
  isError : Bool
  hasNewGoal : Bool
  operationMode : String
  targetAngles : List ℚ
  velocities : List ℚ
  maxVelocities : List ℚ
  axisStates : List ℤ
deriving DecidableEq

instance {ε α : Type} [DecidableEq ε] [DecidableEq α] : DecidableEq (Except ε α) := fun a b =>
  match a, b with
  | .error e, .error f => decidable_of_iff (e = f) (by simp)
  | .error _, .ok _ => isFalse (by simp)
  | .ok _, .error _ => isFalse (by simp)
  | .ok a, .ok b => decidable_of_iff (a = b) (by simp)

/-- Deterministic oracle for the vendor SDK device boundary: which calls
raise a cSDHLibraryException (with what message), and what the four
reads of the tick return. -/
structure Device where
  stopFails : Bool
  stopMsg : String
  setControllerFails : Bool
  setControllerMsg : String
  setAxisEnableFails : Bool
  setTargetAngleFails : Bool
  moveHandFails : Bool
  setTargetVelocityFails : Bool
  getActualAngle : Except String (List ℚ)
  getActualVelocity : Except String (List ℚ)
  getActualState : Except String (List ℤ)
  getTemperature : Except String (List ℚ)
deriving DecidableEq

/-- Modelled from the spec: SDH.ToRange of the vendor utility header
(not part of this repository) clamps a value to the closed interval
from lo to hi, the symmetric range clamp of spec section 4.1. -/
def ToRange (v lo hi : ℚ) : ℚ :=
  if v < lo then lo else if v > hi then hi else v

/-- Embedding of SdhNode.clampVelocities (sdh_only.cpp lines 645-652):
for each index i below the length of max_velocities_, velocities_[i] is
replaced by ToRange(velocities_[i], -max_velocities_[i],
max_velocities_[i]); entries of velocities_ beyond that length are left
unchanged.  In the node both vectors have length DOF_ = 7. -/
def clampVelocities (vels maxVel : List ℚ) : List ℚ :=
  List.zipWith (fun v m => ToRange v (-m) m) vels maxVel ++ vels.drop maxVel.length

/-- Embedding of the completion scan of SdhNode.executeCB (lines
326-337): one pass of the for loop over state_, starting from the
current value of the flag finished.  Each iteration assigns finished
from scratch, ignoring the previous value: finished becomes
(state_[i] == 0) for the current i. -/
def finishedScan (axisStates : List ℤ) (finished0 : Bool) : Bool :=
  axisStates.foldl (fun _f st => decide (st = 0)) finished0

/-- All axis states read idle (0): the completion condition claimed by
the specification for the goal waiter. -/
def allAxesIdle (axisStates : List ℤ) : Bool :=
  axisStates.all (fun st => decide (st = 0))

/-- Device calls the tick can issue to the vendor SDK. -/
inductive DevCall where
  | stop
  | setAxisTargetAngle (angles : List ℚ)
  | moveHand
  | setAxisTargetVelocity (vels : List ℚ)
deriving DecidableEq

/-- Observable events of the goal-handling block of updateSdh, in
program order: device calls, log lines, and the assignment
hasNewGoal_ = false that clears the pending-goal slot. -/
inductive TickEvent where
  | call (c : DevCall)
  | logError (msg : String)
  | logWarn
  | clearGoal
deriving DecidableEq

/-- Events of the position branch of the goal-handling block (lines
677-691): SetAxisTargetAngle then MoveHand inside one try block; if
SetAxisTargetAngle raises, MoveHand is skipped and the exception is
caught and logged. -/
def positionDispatch (d : Device) (angles : List ℚ) : List TickEvent :=
  [TickEvent.call (DevCall.setAxisTargetAngle angles)] ++
    (if d.setTargetAngleFails then [TickEvent.logError "SetAxisTargetAngle"]
     else [TickEvent.call DevCall.moveHand] ++
       (if d.moveHandFails then [TickEvent.logError "MoveHand"] else []))

/-- Events of the velocity branch of the goal-handling block (lines
692-706): clampVelocities (pure) then SetAxisTargetVelocity inside a
try block whose exception is caught and logged. -/
def velocityDispatch (d : Device) (vels maxVel : List ℚ) : List TickEvent :=
  [TickEvent.call (DevCall.setAxisTargetVelocity (clampVelocities vels maxVel))] ++
    (if d.setTargetVelocityFails then [TickEvent.logError "SetAxisTargetVelocity"] else [])

/-- Events of the goal-handling block of updateSdh before the final
clearing assignment: first Stop (exception caught and logged, lines
666-675), then the dispatch branch selected by operationMode_ (lines
677-717). -/
def goalDispatchBody (d : Device) (s : SdhState) : List TickEvent :=
  ([TickEvent.call DevCall.stop] ++
      (if d.stopFails then [TickEvent.logError d.stopMsg] else [])) ++
    (if s.operationMode = "position" then positionDispatch d s.targetAngles
     else if s.operationMode = "velocity" then velocityDispatch d s.velocities s.maxVelocities
     else if s.operationMode = "effort" then [TickEvent.logWarn]
     else [TickEvent.logError "no mode"])

/-- Event trace of the goal-handling block of updateSdh (lines
662-720), executed when isInitialized_ and hasNewGoal_ are both true:
the body above followed by the assignment hasNewGoal_ = false (line
719), which is the last statement of the block. -/
def goalDispatchEvents (d : Device) (s : SdhState) : List TickEvent :=
  if s.isInitialized && s.hasNewGoal then
    goalDispatchBody d s ++ [TickEvent.clearGoal]
  else []

/-- An event is a dispatch call to the device: one of the target or
motion commands (Stop is issued before dispatch and is not itself the
dispatch of the goal). -/
def isDispatchCall : TickEvent → Bool
  | TickEvent.call (DevCall.setAxisTargetAngle _) => true
  | TickEvent.call DevCall.moveHand => true
  | TickEvent.call (DevCall.setAxisTargetVelocity _) => true
  | _ => false

/-- The property claimed for the tick: no dispatch call to the device
occurs before the first clearGoal event of the trace. -/
def noDispatchBeforeClear (evs : List TickEvent) : Bool :=
  (evs.takeWhile (fun e => !(decide (e = TickEvent.clearGoal)))).all
    (fun e => !(isDispatchCall e))

/-- Embedding of the read phase of updateSdh (lines 722-841):
GetAxisActualAngle (lines 724-732) and GetAxisActualVelocity (lines
734-742) are each wrapped in try/catch, so an exception there is
caught and logged and the vector stays empty; GetAxisActualState
(line 828) and GetTemperature (line 833) are issued with no
surrounding try, so an exception there escapes updateSdh. -/
def tickReadPhase (d : Device) : Except String (List ℚ × List ℚ × List ℤ × List ℚ) :=
  let actualAngles := match d.getActualAngle with
    | Except.ok a => a
    | Except.error _ => ([] : List ℚ)
  let actualVelocities := match d.getActualVelocity with
    | Except.ok v => v
    | Except.error _ => ([] : List ℚ)
  match d.getActualState with
  | Except.error e => Except.error e
  | Except.ok st =>
    match d.getTemperature with
    | Except.error e => Except.error e
    | Except.ok temp => Except.ok (actualAngles, actualVelocities, st, temp)

/-- Embedding of SdhNode.switchOperationMode (lines 225-256).  It
first assigns hasNewGoal_ = false and calls Stop outside any try
(line 228: an exception there escapes, carrying the already-updated
state).  Inside the try it sets the controller for mode "position" or
"velocity" (any other mode returns false), then enables all axes; a
caught exception returns false.  Only after all of that succeeds is
operationMode_ assigned. -/
def switchOperationMode (d : Device) (s : SdhState) (mode : String) :
    Except (String × SdhState) (Bool × SdhState) :=
  let s1 := { s with hasNewGoal := false }
  if d.stopFails then Except.error (d.stopMsg, s1)
  else if mode = "position" then
    if d.setControllerFails then Except.ok (false, s1)
    else if d.setAxisEnableFails then Except.ok (false, s1)
    else Except.ok (true, { s1 with operationMode := mode })
  else if mode = "velocity" then
    if d.setControllerFails then Except.ok (false, s1)
    else if d.setAxisEnableFails then Except.ok (false, s1)
    else Except.ok (true, { s1 with operationMode := mode })
  else Except.ok (false, s1)

/-- Embedding of SdhNode.srvCallback_SetOperationMode (lines 516-543).
It assigns hasNewGoal_ = false at entry (line 518), calls Stop outside
any try (line 519), calls switchOperationMode for the requested string,
and then redundantly re-applies the controller selected by the NEW
value of operationMode_: the position branch (line 523) is not guarded
by a try, so a SetController exception there escapes; the velocity
branch is guarded and its exception is caught and logged. -/
def srvCallback_SetOperationMode (d : Device) (s : SdhState) (data : String) :
    Except (String × SdhState) (Bool × SdhState) :=
  let s1 := { s with hasNewGoal := false }
  if d.stopFails then Except.error (d.stopMsg, s1)
  else
    match switchOperationMode d s1 data with
    | Except.error es => Except.error es
    | Except.ok (succ, s2) =>
      if s2.operationMode = "position" then
        if d.setControllerFails then Except.error (d.setControllerMsg, s2)
        else Except.ok (succ, s2)
      else if s2.operationMode = "velocity" then
        Except.ok (succ, s2)
      else
        Except.ok (succ, s2)

/-- Resulting node state of a service call, whether the call returned
normally or escaped with a device exception. -/
def outState : Except (String × SdhState) (Bool × SdhState) → SdhState
  | Except.error (_, s) => s
  | Except.ok (_, s) => s

/-- Response of a std_srvs Trigger service: success flag and message. -/
structure TriggerResp where
  success : Bool
  message : String
deriving DecidableEq

/-- Embedding of SdhNode.srvCallback_Stop (lines 474-492).  The Stop
call sits in a try whose catch only logs the exception; the code then
unconditionally logs success and sets res.success = true, and never
writes res.message (left at its default empty string). -/
def srvCallback_Stop (d : Device) : TriggerResp × List TickEvent :=
  ({ success := true, message := "" },
   [TickEvent.call DevCall.stop] ++
     (if d.stopFails then [TickEvent.logError d.stopMsg] else []))

/-- Literal value of the member pi_ set in the SdhNode constructor
(line 124): 3.1415926. -/
def piRat : ℚ := 31415926 / 10000000

/-- The seven joint names in joint-name (message) order, as listed in
the comments of updateSdh (line 757). -/
def jointOrderNames : List String :=
  ["sdh_knuckle_joint", "sdh_thumb_2_joint", "sdh_thumb_3_joint",
   "sdh_finger_12_joint", "sdh_finger_13_joint",
   "sdh_finger_22_joint", "sdh_finger_23_joint"]

/-- The seven joint names in device axis order: the order in which
executeCB writes targetAngles_[0..6] (lines 296-302). -/
def deviceOrderNames : List String :=
  ["sdh_knuckle_joint", "sdh_finger_22_joint", "sdh_finger_23_joint",
   "sdh_thumb_2_joint", "sdh_thumb_3_joint",
   "sdh_finger_12_joint", "sdh_finger_13_joint"]

/-- Embedding of the lookup dict[n] built in executeCB (lines 289-293):
the index of n in the goal joint-name list; a std::map operator[]
access for an absent key default-inserts the value 0. -/
def dictLookup (names : List String) (n : String) : ℕ :=
  let i := names.indexOf n
  if i < names.length then i else 0

/-- A FollowJointTrajectory goal as far as executeCB reads it: the
joint-name list and the positions of each trajectory point. -/
structure TrajGoal where
  jointNames : List String
  points : List (List ℚ)
deriving DecidableEq

/-- Embedding of the targetAngles_ assignment of executeCB (lines
295-302): for each axis index, the goal position of the joint name
hardcoded for that axis, scaled by 180/pi_ (radians to degrees). -/
def computeTargetAngles (goal : TrajGoal) : List ℚ :=
  let p := goal.points.headD []
  deviceOrderNames.map (fun n => p.getD (dictLookup goal.jointNames n) 0 * 180 / piRat)

/-- Embedding of the joint-state position assignment of updateSdh
(lines 759-765): msg.position[j] = actualAngles[f j] * pi_/180 with
the hardcoded axis indices f = [0,3,4,5,6,1,2]. -/
def publishPositions (actualAngles : List ℚ) : List ℚ :=
  [actualAngles.getD 0 0 * piRat / 180,
   actualAngles.getD 3 0 * piRat / 180,
   actualAngles.getD 4 0 * piRat / 180,
   actualAngles.getD 5 0 * piRat / 180,
   actualAngles.getD 6 0 * piRat / 180,
   actualAngles.getD 1 0 * piRat / 180,
   actualAngles.getD 2 0 * piRat / 180]

/-- The to-device index table implicit in executeCB: axis i reads the
goal entry of joint dictLookup jointOrderNames (deviceOrderNames i)
when the goal arrives in joint-name order. -/
def toDeviceTable : List ℕ := deviceOrderNames.map (dictLookup jointOrderNames)

/-- The from-device index table hardcoded in the publication of
updateSdh (lines 759-765). -/
def fromDeviceTable : List ℕ := [0, 3, 4, 5, 6, 1, 2]

/-- Outcome of executeCB before any goal installation. -/
inductive ExecOutcome where
  | rejectedNotPositionMode
  | rejectedNotInitialized
  | rejectedMalformed
  | accepted
deriving DecidableEq

/-- Embedding of the entry of SdhNode.executeCB (lines 264-313) up to
goal installation.  Checks in program order: operationMode_ must be
"position" (line 267), the node must be initialized (line 273), and
the goal must have a first trajectory point with DOF_ = 7 positions
(line 280); each rejection calls setAborted and returns with the node
state untouched and no device call issued (executeCB itself never
calls into the device).  The accepted branch models the code after the
spin-wait on hasNewGoal_: targetAngles_ is written from the goal and
hasNewGoal_ is set true (lines 295-313).  The returned event list
holds the device calls issued, always empty for this function. -/
def executeCB (s : SdhState) (goal : TrajGoal) :
    ExecOutcome × SdhState × List TickEvent :=
  if s.operationMode ≠ "position" then (ExecOutcome.rejectedNotPositionMode, s, [])
  else if s.isInitialized = false then (ExecOutcome.rejectedNotInitialized, s, [])
  else if goal.points.isEmpty || (goal.points.headD []).length ≠ 7 then
    (ExecOutcome.rejectedMalformed, s, [])
  else
    (ExecOutcome.accepted,
     { s with targetAngles := computeTargetAngles goal, hasNewGoal := true }, [])

/-- State transition of updateSdh (lines 659-874).  When initialized:
the goal block (if hasNewGoal_) clamps velocities_ in velocity mode and
ends with hasNewGoal_ = false; then state_ is assigned from
GetAxisActualState (line 828), whose exception escapes, as does a
GetTemperature exception (line 833).  When not initialized only the
diagnostics are published and the state is unchanged. -/
def updateSdhState (d : Device) (s : SdhState) : Except (String × SdhState) SdhState :=
  if s.isInitialized then
    let s1 :=
      if s.hasNewGoal then
        if s.operationMode = "velocity" then
          { s with velocities := clampVelocities s.velocities s.maxVelocities,
                   hasNewGoal := false }
        else { s with hasNewGoal := false }
      else s
    match d.getActualState with
    | Except.error e => Except.error (e, s1)
    | Except.ok st =>
      match d.getTemperature with
      | Except.error e => Except.error (e, { s1 with axisStates := st })
      | Except.ok _ => Except.ok { s1 with axisStates := st }
  else Except.ok s

/-- Resulting node state of the tick, whether it completed or escaped
with a device exception. -/
def outStateT : Except (String × SdhState) SdhState → SdhState
  | Except.error (_, s) => s
  | Except.ok s => s

/-- Diagnostic level published at the end of every updateSdh (lines
848-873): 2 (Error) when isError_, else 0 (OK) when initialized, else
1 (Warning). -/
def diagnosticsLevel (s : SdhState) : ℕ :=
  if s.isError then 2 else if s.isInitialized then 0 else 1

/-- Node state after the SdhNode constructor (line 125 sets isError_ =
false) and init() (lines 146-147 set isInitialized_ = false and
hasNewGoal_ = false; line 217 defaults operationMode_ to "position";
velocities_ is resized to DOF_ = 7). -/
def initialState : SdhState :=
  { isInitialized := false, isError := false, hasNewGoal := false,
    operationMode := "position", targetAngles := [],
    velocities := List.replicate 7 0, maxVelocities := [],
    axisStates := List.replicate 7 0 }

/-- Device oracle on which every call succeeds, with concrete read
values. -/
def devOk : Device :=
  { stopFails := false, stopMsg := "",
    setControllerFails := false, setControllerMsg := "",
    setAxisEnableFails := false, setTargetAngleFails := false,
    moveHandFails := false, setTargetVelocityFails := false,
    getActualAngle := Except.ok [1, 2, 3, 4, 5, 6, 7],
    getActualVelocity := Except.ok [0, 0, 0, 0, 0, 0, 0],
    getActualState := Except.ok [0, 0, 0, 0, 0, 0, 0],
    getTemperature := Except.ok [30, 30, 30, 30, 30, 30, 30, 30, 30] }

/-- Device oracle on which only the Stop call raises. -/
def devStopFail : Device :=
  { devOk with stopFails := true, stopMsg := "communication lost" }

/-- Device oracle on which only GetAxisActualState raises. -/
def devStateFail : Device :=
  { devOk with getActualState := Except.error "state read failed" }

/-- Initialized node state in position mode with a pending goal. -/
def stateGoalPos : SdhState :=
  { isInitialized := true, isError := false, hasNewGoal := true,
    operationMode := "position",
    targetAngles := [10, 20, 30, 40, 50, 60, 70],
    velocities := [0, 0, 0, 0, 0, 0, 0],
    maxVelocities := [83, 140, 200, 140, 200, 140, 200],
    axisStates := [0, 0, 0, 0, 0, 0, 0] }

lemma clearGoal_not_mem_goalDispatchBody (d : Device) (s : SdhState) :
    TickEvent.clearGoal ∉ goalDispatchBody d s := by
  by_cases hs : d.stopFails <;>
    by_cases hp : s.operationMode = "position" <;>
    by_cases hv : s.operationMode = "velocity" <;>
    by_cases he : s.operationMode = "effort" <;>
    by_cases ha : d.setTargetAngleFails <;>
    by_cases hm : d.moveHandFails <;>
    by_cases htv : d.setTargetVelocityFails <;>
    simp [goalDispatchBody, positionDispatch, velocityDispatch, hs, hp, hv, he, ha, hm, htv]

/-- C1: the claim states that executeCB declares a position goal
complete if and only if all 7 axis states read idle (0).  The scan of
lines 326-337 overwrites the flag finished on every iteration, so one
pass leaves finished equal to whether the LAST axis is idle: at the
state vector [1,1,1,1,1,1,0] (axes 0 to 5 still moving, axis 6 idle)
the scan reports finished even though not all axes are idle.  The
clear intent of the loop (it visits every axis) and of the
specification is the all-axes check; the accumulator overwrite is a
coding slip. -/
theorem C1_executeCB_completion_scan_bug :
    finishedScan [1, 1, 1, 1, 1, 1, 0] false = true ∧
      allAxesIdle [1, 1, 1, 1, 1, 1, 0] = false := by
  decide

/-- C2 counterexample: at a concrete initialized state with a pending
position goal and an all-success device, the tick trace issues the
dispatch calls (SetAxisTargetAngle, MoveHand) before the clearGoal
event, so the claim that the slot is cleared before any dispatch call
fails. -/
theorem C2_counterexample :
    stateGoalPos.isInitialized = true ∧ stateGoalPos.hasNewGoal = true ∧
      noDispatchBeforeClear (goalDispatchEvents devOk stateGoalPos) = false := by
  decide

/-- C2 amended: in every tick that finds a pending goal, the tick
clears the pending-goal slot only AFTER the whole dispatch block: the
trace ends with the single clearGoal event and every dispatch call
precedes it, so the slot is still occupied while the dispatch is in
flight. -/
theorem C2_tick_clears_goal_after_dispatch (d : Device) (s : SdhState)
    (h1 : s.isInitialized = true) (h2 : s.hasNewGoal = true) :
    ∃ pre, goalDispatchEvents d s = pre ++ [TickEvent.clearGoal] ∧
      TickEvent.clearGoal ∉ pre := by
  refine ⟨goalDispatchBody d s, ?_, clearGoal_not_mem_goalDispatchBody d s⟩
  simp [goalDispatchEvents, h1, h2]

/-- C2 witness for the amended theorem at the concrete state and
device of the counterexample. -/
theorem C2_tick_clears_goal_after_dispatch_witness :
    ∃ pre, goalDispatchEvents devOk stateGoalPos = pre ++ [TickEvent.clearGoal] ∧
      TickEvent.clearGoal ∉ pre :=
  C2_tick_clears_goal_after_dispatch devOk stateGoalPos rfl rfl

/-- Device oracle on which both guarded reads (actual angle, actual
velocity) raise while the unguarded reads succeed. -/
def devGuardedReadsFail : Device :=
  { devOk with getActualAngle := Except.error "angle read failed",
               getActualVelocity := Except.error "velocity read failed" }

/-- C3 counterexample: the claim states that every device read error
of the tick read phase is caught, so the phase never escapes with an
exception.  At a device whose GetAxisActualState raises, the read
phase of updateSdh escapes with that very exception, because line 828
has no surrounding try. -/
theorem C3_counterexample :
    devStateFail.getActualState = Except.error "state read failed" ∧
      tickReadPhase devStateFail = Except.error "state read failed" := by
  decide

/-- C3 amended: exceptions of the two guarded reads (actual angles,
actual velocities) are caught and logged and the tick read phase
continues with empty best-effort vectors; an exception of the per-axis
state read or of the temperature read is not caught and escapes
updateSdh. -/
theorem C3_guarded_and_unguarded_reads (d : Device) :
    (∀ ea ev st temp, d.getActualAngle = Except.error ea →
        d.getActualVelocity = Except.error ev →
        d.getActualState = Except.ok st → d.getTemperature = Except.ok temp →
        tickReadPhase d = Except.ok ([], [], st, temp)) ∧
    (∀ e, d.getActualState = Except.error e → tickReadPhase d = Except.error e) ∧
    (∀ st e, d.getActualState = Except.ok st → d.getTemperature = Except.error e →
        tickReadPhase d = Except.error e) := by
  refine ⟨?_, ?_, ?_⟩ <;> intros <;> simp_all [tickReadPhase]

/-- C3 witness: at a device whose two guarded reads both raise and
whose unguarded reads succeed, the read phase completes with empty
angle and velocity vectors. -/
theorem C3_guarded_and_unguarded_reads_witness :
    tickReadPhase devGuardedReadsFail =
      Except.ok ([], [], [0, 0, 0, 0, 0, 0, 0],
        [30, 30, 30, 30, 30, 30, 30, 30, 30]) :=
  (C3_guarded_and_unguarded_reads devGuardedReadsFail).1
    "angle read failed" "velocity read failed" _ _ rfl rfl rfl rfl

/-- C4: every component of a dispatched velocity goal is clamped by
clampVelocities to the closed interval from -max_velocities_[i] to
+max_velocities_[i], and a component already inside the interval is
passed through unchanged; the tick velocity branch sends exactly the
clamped vector to the device. -/
theorem C4_velocity_clamped (vels maxVel : List ℚ) (i : ℕ)
    (hv : i < vels.length) (hm : i < maxVel.length) (h0 : 0 ≤ maxVel[i]) :
    (clampVelocities vels maxVel)[i]? =
      some (ToRange vels[i] (-maxVel[i]) maxVel[i]) ∧
    -maxVel[i] ≤ ToRange vels[i] (-maxVel[i]) maxVel[i] ∧
    ToRange vels[i] (-maxVel[i]) maxVel[i] ≤ maxVel[i] ∧
    (-maxVel[i] ≤ vels[i] → vels[i] ≤ maxVel[i] →
      ToRange vels[i] (-maxVel[i]) maxVel[i] = vels[i]) ∧
    (∀ d, (velocityDispatch d vels maxVel).head? =
      some (TickEvent.call (DevCall.setAxisTargetVelocity (clampVelocities vels maxVel)))) := by
  have hlen : i < (List.zipWith (fun v m => ToRange v (-m) m) vels maxVel).length := by
    rw [List.length_zipWith]
    omega
  refine ⟨?_, ?_, ?_, ?_, fun d => rfl⟩
  · unfold clampVelocities
    rw [List.getElem?_append_left hlen, List.getElem?_eq_getElem hlen,
      List.getElem_zipWith]
  · unfold ToRange
    split_ifs <;> linarith
  · unfold ToRange
    split_ifs <;> linarith
  · intro hge hle
    unfold ToRange
    split_ifs with hlt hgt
    · linarith
    · linarith
    · rfl

/-- C4 witness at a concrete one-axis instance: velocity 3 with max
velocity 5 is inside the interval and dispatched unchanged. -/
theorem C4_velocity_clamped_witness :
    (clampVelocities [3] [5])[0]? = some (ToRange 3 (-5) 5) ∧
      ToRange (3 : ℚ) (-5) 5 = 3 := by
  have h := C4_velocity_clamped [3] [5] 0 (by decide) (by decide) (by decide)
  exact ⟨h.1, h.2.2.2.1 (by decide) (by decide)⟩

lemma degRadRoundtrip (x : ℚ) : x * 180 / piRat * piRat / 180 = x := by
  have hp : piRat ≠ 0 := by norm_num [piRat]
  field_simp

/-- C5: the radians-to-degrees submission map of executeCB composed
with the degrees-to-radians publication map of updateSdh is the
identity on every 7-element goal given in joint-name order (exactly,
in the rational model), and the two hardcoded index tables are
mutually inverse permutations of the indices 0 to 6. -/
theorem C5_permutation_roundtrip (a b c d e f g : ℚ) :
    publishPositions
        (computeTargetAngles (TrajGoal.mk jointOrderNames [[a, b, c, d, e, f, g]])) =
      [a, b, c, d, e, f, g] ∧
    toDeviceTable = [0, 5, 6, 1, 2, 3, 4] ∧
    (∀ i : Fin 7, fromDeviceTable.getD (toDeviceTable.getD i 0) 0 = (i : ℕ) ∧
      toDeviceTable.getD (fromDeviceTable.getD i 0) 0 = (i : ℕ)) := by
  refine ⟨?_, by decide, by decide⟩
  have h : computeTargetAngles (TrajGoal.mk jointOrderNames [[a, b, c, d, e, f, g]]) =
      [a * 180 / piRat, f * 180 / piRat, g * 180 / piRat, b * 180 / piRat,
       c * 180 / piRat, d * 180 / piRat, e * 180 / piRat] := rfl
  rw [h]
  simp [publishPositions, degRadRoundtrip]

/-- C6: whenever switchOperationMode returns success, the stored
operation mode afterwards equals the requested mode and the
pending-goal slot is empty; whenever it returns failure, the stored
operation mode is left unchanged. -/
theorem C6_switchOperationMode_postconditions (d : Device) (s : SdhState)
    (mode : String) (r : Bool × SdhState)
    (h : switchOperationMode d s mode = Except.ok r) :
    (r.1 = true → r.2.operationMode = mode ∧ r.2.hasNewGoal = false) ∧
    (r.1 = false → r.2.operationMode = s.operationMode) := by
  unfold switchOperationMode at h
  split_ifs at h <;> simp_all
  all_goals cases h
  all_goals simp_all

/-- Node state equal to initialState except that the operation mode
reads velocity. -/
def stateVelOk : SdhState :=
  { isInitialized := false, isError := false, hasNewGoal := false,
    operationMode := "velocity", targetAngles := [],
    velocities := List.replicate 7 0, maxVelocities := [],
    axisStates := List.replicate 7 0 }

/-- C6 witness: switching the freshly initialized node to velocity
mode on an all-success device yields mode velocity and an empty
pending-goal slot. -/
theorem C6_switchOperationMode_postconditions_witness :
    stateVelOk.operationMode = "velocity" ∧ stateVelOk.hasNewGoal = false :=
  (C6_switchOperationMode_postconditions devOk initialState "velocity"
    (true, stateVelOk) rfl).1 rfl

/-- C7 counterexample: the claim states that a device exception in the
Stop call is mapped to a failure response; at a device whose Stop call
raises, srvCallback_Stop nonetheless reports success. -/
theorem C7_counterexample :
    devStopFail.stopFails = true ∧
      (srvCallback_Stop devStopFail).1.success = true := by
  decide

/-- C7 amended: a device exception raised by the Stop call is caught
and logged, but srvCallback_Stop always answers success with an empty
message, whether or not the device call raised; the exception never
escapes and is never reflected in the response. -/
theorem C7_stop_always_reports_success (d : Device) :
    (srvCallback_Stop d).1 = { success := true, message := "" } ∧
    (d.stopFails = true →
      (srvCallback_Stop d).2 =
        [TickEvent.call DevCall.stop, TickEvent.logError d.stopMsg]) ∧
    (d.stopFails = false →
      (srvCallback_Stop d).2 = [TickEvent.call DevCall.stop]) := by
  refine ⟨rfl, ?_, ?_⟩ <;> intro h <;> simp [srvCallback_Stop, h]

/-- C7 witness at the concrete failing device: the exception is logged
but the response is still success. -/
theorem C7_stop_always_reports_success_witness :
    (srvCallback_Stop devStopFail).2 =
      [TickEvent.call DevCall.stop, TickEvent.logError "communication lost"] :=
  (C7_stop_always_reports_success devStopFail).2.1 rfl

/-- C8: a position-goal submission arriving while the mode is not
position, or while the node is not initialized, or with a malformed
goal (no trajectory point, or a first point without exactly 7
positions) is rejected synchronously: the returned state is the
unchanged input state (in particular targetAngles_ and hasNewGoal_
keep their values) and no device call is issued. -/
theorem C8_executeCB_rejects_without_mutation (s : SdhState) (goal : TrajGoal)
    (h : s.operationMode ≠ "position" ∨ s.isInitialized = false ∨
      goal.points = [] ∨ (goal.points.headD []).length ≠ 7) :
    ∃ o, executeCB s goal = (o, s, []) ∧ o ≠ ExecOutcome.accepted := by
  by_cases h1 : s.operationMode = "position"
  · by_cases h2 : s.isInitialized = false
    · exact ⟨ExecOutcome.rejectedNotInitialized, by simp [executeCB, h1, h2], by decide⟩
    · refine ⟨ExecOutcome.rejectedMalformed, ?_, by decide⟩
      have h3 : goal.points.isEmpty = true ∨ (goal.points.headD []).length ≠ 7 := by
        rcases h with h | h | h | h
        · exact absurd h1 h
        · exact absurd h h2
        · exact Or.inl (by simp [h])
        · exact Or.inr h
      rcases h3 with h3 | h3
      · simp [executeCB, h1, h2, h3]
      · simp [executeCB, h1, h2, h3]
        intro _
        simpa [List.headD_eq_head?] using h3
  · exact ⟨ExecOutcome.rejectedNotPositionMode, by simp [executeCB, h1], by decide⟩

/-- C8 witness: a well-formed goal submitted to an initialized node in
velocity mode is rejected with the state unchanged and no device
call. -/
theorem C8_executeCB_rejects_without_mutation_witness :
    ∃ o, executeCB stateVelOk (TrajGoal.mk jointOrderNames [[0, 0, 0, 0, 0, 0, 0]]) =
        (o, stateVelOk, []) ∧ o ≠ ExecOutcome.accepted :=
  C8_executeCB_rejects_without_mutation stateVelOk
    (TrajGoal.mk jointOrderNames [[0, 0, 0, 0, 0, 0, 0]]) (Or.inl (by decide))

/-- Initialized node state in velocity mode with a pending goal. -/
def stateVelGoal : SdhState :=
  { isInitialized := true, isError := false, hasNewGoal := true,
    operationMode := "velocity", targetAngles := [],
    velocities := [1, 2, 3, 4, 5, 6, 7],
    maxVelocities := [83, 140, 200, 140, 200, 140, 200],
    axisStates := [1, 1, 1, 1, 1, 1, 1] }

/-- C9: every invocation of the SetOperationMode service leaves the
pending-goal slot cleared (hasNewGoal_ false), whatever the outcome:
the assignment at line 518 precedes every other action and nothing
later sets the flag again.  When the requested mode string is
unrecognized the call fails without ever returning success, yet the
slot has still been discarded while the active mode is left
unchanged: the failed request is not atomic. -/
theorem C9_setOperationMode_clears_goal (d : Device) (s : SdhState) (data : String) :
    (outState (srvCallback_SetOperationMode d s data)).hasNewGoal = false ∧
    (data ≠ "position" → data ≠ "velocity" →
      (outState (srvCallback_SetOperationMode d s data)).operationMode = s.operationMode ∧
      ∀ s2, srvCallback_SetOperationMode d s data ≠ Except.ok (true, s2)) := by
  by_cases h1 : d.stopFails <;>
    by_cases h2 : data = "position" <;>
    by_cases h3 : data = "velocity" <;>
    by_cases h4 : d.setControllerFails <;>
    by_cases h5 : d.setAxisEnableFails <;>
    by_cases h6 : s.operationMode = "position" <;>
    by_cases h7 : s.operationMode = "velocity" <;>
    simp_all [srvCallback_SetOperationMode, switchOperationMode, outState]

/-- C9 witness: requesting the unsupported mode effort on a node in
velocity mode with a pending goal discards the goal and keeps the
mode. -/
theorem C9_setOperationMode_clears_goal_witness :
    stateVelGoal.hasNewGoal = true ∧
    (outState (srvCallback_SetOperationMode devOk stateVelGoal "effort")).hasNewGoal = false ∧
    (outState (srvCallback_SetOperationMode devOk stateVelGoal "effort")).operationMode =
      stateVelGoal.operationMode :=
  ⟨rfl, (C9_setOperationMode_clears_goal devOk stateVelGoal "effort").1,
    ((C9_setOperationMode_clears_goal devOk stateVelGoal "effort").2
      (by decide) (by decide)).1⟩

lemma switchOperationMode_preserves_isError (d : Device) (s : SdhState) (mode : String) :
    (outState (switchOperationMode d s mode)).isError = s.isError := by
  unfold switchOperationMode outState
  split_ifs <;> rfl

lemma srvCallback_SetOperationMode_preserves_isError (d : Device) (s : SdhState)
    (data : String) :
    (outState (srvCallback_SetOperationMode d s data)).isError = s.isError := by
  by_cases h1 : d.stopFails <;>
    by_cases h2 : data = "position" <;>
    by_cases h3 : data = "velocity" <;>
    by_cases h4 : d.setControllerFails <;>
    by_cases h5 : d.setAxisEnableFails <;>
    by_cases h6 : s.operationMode = "position" <;>
    by_cases h7 : s.operationMode = "velocity" <;>
    simp_all [srvCallback_SetOperationMode, switchOperationMode, outState]

lemma executeCB_preserves_isError (s : SdhState) (goal : TrajGoal) :
    (executeCB s goal).2.1.isError = s.isError := by
  unfold executeCB
  split_ifs <;> rfl

lemma updateSdhState_preserves_isError (d : Device) (s : SdhState) :
    (outStateT (updateSdhState d s)).isError = s.isError := by
  unfold updateSdhState outStateT
  split_ifs <;>
    rcases d.getActualState with e | st <;>
    rcases d.getTemperature with e2 | temp <;>
    simp

/-- C10: the error flag is false at construction and no operation of
the node ever sets it, so the published diagnostic level is never
2 (Error): with the flag false it is 0 (OK) exactly when the node is
initialized and 1 (Warning) exactly when it is not. -/
theorem C10_isError_never_set (d : Device) (s : SdhState) (goal : TrajGoal)
    (mode data : String) (h : s.isError = false) :
    initialState.isError = false ∧
    (outState (switchOperationMode d s mode)).isError = false ∧
    (outState (srvCallback_SetOperationMode d s data)).isError = false ∧
    (executeCB s goal).2.1.isError = false ∧
    (outStateT (updateSdhState d s)).isError = false ∧
    diagnosticsLevel s ≠ 2 ∧
    (diagnosticsLevel s = 0 ↔ s.isInitialized = true) ∧
    (diagnosticsLevel s = 1 ↔ s.isInitialized = false) := by
  refine ⟨rfl, ?_, ?_, ?_, ?_, ?_, ?_, ?_⟩
  · rw [switchOperationMode_preserves_isError, h]
  · rw [srvCallback_SetOperationMode_preserves_isError, h]
  · rw [executeCB_preserves_isError, h]
  · rw [updateSdhState_preserves_isError, h]
  · unfold diagnosticsLevel
    rw [h]
    rcases s.isInitialized <;> simp
  · unfold diagnosticsLevel
    rw [h]
    rcases s.isInitialized <;> simp
  · unfold diagnosticsLevel
    rw [h]
    rcases s.isInitialized <;> simp

/-- C10 witness at the freshly initialized node state and an
all-success device: the diagnostic level is 1 (not initialized) and
the tick leaves the error flag false. -/
theorem C10_isError_never_set_witness :
    (outStateT (updateSdhState devOk initialState)).isError = false ∧
      diagnosticsLevel initialState ≠ 2 ∧ diagnosticsLevel initialState = 1 :=
  ⟨(C10_isError_never_set devOk initialState (TrajGoal.mk [] []) "position" "position"
      rfl).2.2.2.2.1,
   (C10_isError_never_set devOk initialState (TrajGoal.mk [] []) "position" "position"
      rfl).2.2.2.2.2.1,
   ((C10_isError_never_set devOk initialState (TrajGoal.mk [] []) "position" "position"
      rfl).2.2.2.2.2.2.2).mpr rfl⟩
